import Mathlib

/-!
Verification development for the `ansible-log-analysis` repository.

The definitions below are shallow embeddings of the pure parts of the
Python source:

* `src/alm/agents/graph.py` — the diagnostic orchestrator nodes
  (context merging in `get_more_context_node`, routing in
  `router_step_by_step_solution_node`);
* `src/alm/agents/output_scheme.py` — the structured-output schemas;
* `src/alm/agents/node.py` — classification and the clustering stage
  (`classify_log`, `_handle_outlaier_cluster`,
  `train_embed_and_cluster_logs`);
* `src/alm/tools/loki_tools.py` — the context-window protocol
  (`_extract_context_lines_above`, the pure core of
  `get_log_lines_above`);
* `src/alm/rag/embed_and_index.py` — composite-embedding construction,
  index building and persistence;
* `src/alm/rag/query_pipeline.py` — the ranked retrieval query.

External effectful collaborators (the language model, the sentence
embedder, sklearn clustering, the FAISS nearest-neighbour search, the
Loki MCP transport) are modelled as explicit function parameters; the
file states and proves properties of the deterministic glue code that
the repository itself implements around them.
-/

/-! ## Substring search

Python's `needle in hay` test and first-occurrence position, used by
`_extract_context_lines_above` (`target_message in log.message`) and to
talk about the relative position of blocks inside merged context
strings. -/

/-- First index at which `needle` occurs as a contiguous substring of
`hay`, scanning left to right (the semantics of Python's `str.find`). -/
def findSub (needle : List Char) : List Char → Option Nat
  | [] => if needle.isPrefixOf ([] : List Char) then some 0 else none
  | c :: t =>
    if needle.isPrefixOf (c :: t) then some 0
    else (findSub needle t).map (· + 1)

/-- Python's `needle in hay` substring test. -/
def containsSub (hay needle : String) : Bool :=
  (findSub needle.data hay.data).isSome

/-- First occurrence index of `needle` inside `hay`, as a `String`
level wrapper around `findSub`. -/
def subIdx (hay needle : String) : Option Nat :=
  findSub needle.data hay.data

/-- `a` occurs in `hay` and its first occurrence is strictly before the
first occurrence of `b`. -/
def appearsBeforeIn (hay a b : String) : Bool :=
  match subIdx hay a, subIdx hay b with
  | some i, some j => decide (i < j)
  | _, _ => false

/-! ## C1 — context merging (`get_more_context_node`, graph.py:99-107)

```python
cheat_sheet_context = (
    f"Context from cheat sheet:\n{context_agent_state.cheat_sheet_context}"
)
context = (
    f"Context logs from loki:\n{loki_context}\n\n{cheat_sheet_context}"
    if loki_context
    else cheat_sheet_context
)
```

`loki_context` is `Optional[str]`; Python truthiness treats both `None`
and the empty string as false. -/

/-- The merged context string stored in `contextForStepByStepSolution`
by `get_more_context_node`. -/
def mergeContext (loki_context : Option String) (cheat_sheet : String) : String :=
  let cheat_sheet_context := "Context from cheat sheet:\n" ++ cheat_sheet
  match loki_context with
  | none => cheat_sheet_context
  | some l =>
    if l = "" then cheat_sheet_context
    else "Context logs from loki:\n" ++ l ++ "\n\n" ++ cheat_sheet_context

/-! ## C2 — routing after classification
(`router_step_by_step_solution_node`, graph.py:61-76, and
`RouterStepByStepSolutionSchema`, output_scheme.py:30-34)

```python
class RouterStepByStepSolutionSchema(BaseModel):
    suggestion: Literal["straightforward", "complex"] = Field(...)

return Command(
    goto="suggest_step_by_step_solution_node"
    if classification == "No More Context Needed"
    else "get_more_context_node",
    update={"needMoreContext": classification == "Need More Context"},
)
```
-/

/-- The closed enumeration of values the routing call's structured
output can carry (`RouterStepByStepSolutionSchema.suggestion`). -/
inductive RouterSuggestion where
  | straightforward
  | complex
deriving DecidableEq

/-- The literal string of each `RouterSuggestion` value. -/
def RouterSuggestion.text : RouterSuggestion → String
  | .straightforward => "straightforward"
  | .complex => "complex"

/-- The `goto` target computed by `router_step_by_step_solution_node`
from the routing call's output string. -/
def routerGoto (classification : String) : String :=
  if classification = "No More Context Needed" then
    "suggest_step_by_step_solution_node"
  else
    "get_more_context_node"

/-- The `needMoreContext` flag stored by
`router_step_by_step_solution_node`. -/
def routerNeedMoreContext (classification : String) : Bool :=
  classification = "Need More Context"

example : mergeContext (some "L") "C" =
    "Context logs from loki:\nL\n\nContext from cheat sheet:\nC" := by rfl

example : subIdx (mergeContext (some "L") "C") "Context logs from loki:" = some 0 := by
  decide

example : subIdx (mergeContext (some "L") "C") "Context from cheat sheet:" = some 27 := by
  decide

/-! ## C3 — context-window protocol
(`_extract_context_lines_above`, loki_tools.py:246-285, and the pure
tail of `get_log_lines_above`, loki_tools.py:394-430)

```python
target_idx = None
for i, log in enumerate(all_logs):
    if target_message in log.message:
        target_idx = i
        break
if target_idx is None:
    return [], f"Target log message not found in the {len(all_logs)} fetched logs"
start_idx = max(0, target_idx - lines_above)
end_idx = target_idx + 1
context_logs = all_logs[start_idx:end_idx]
return context_logs, None
```
-/

/-- One live-query log line (`LogEntry` in
`alm/agents/loki_agent/schemas`): timestamp plus message text.  The
label map does not participate in the window computation and is kept as
an opaque string. -/
structure LogEntry where
  timestamp : String
  message : String
  log_labels : String := ""
deriving DecidableEq, Repr

/-- `ToolStatus` (success/error) of a normalized tool result. -/
inductive ToolStatus where
  | success
  | error
deriving DecidableEq, Repr

/-- The normalized `LogToolOutput` shape every log-query tool returns
(status, optional message, ordered log list, count). -/
structure LogToolOutput where
  status : ToolStatus
  message : Option String
  logs : List LogEntry
  number_of_logs : Nat
deriving DecidableEq, Repr

/-- `_extract_context_lines_above`: find the first log whose message
contains `target_message` as a substring, then slice out the
`lines_above` preceding entries plus the target itself.  Returns the
not-found error message when no log line contains the target. -/
def extract_context_lines_above (all_logs : List LogEntry)
    (target_message : String) (lines_above : Nat) :
    Except String (List LogEntry) :=
  match all_logs.findIdx? (fun log => containsSub log.message target_message) with
  | none =>
    .error ("Target log message not found in the " ++ toString all_logs.length
      ++ " fetched logs")
  | some target_idx =>
    let start_idx := target_idx - lines_above
    let end_idx := target_idx + 1
    .ok ((all_logs.drop start_idx).take (end_idx - start_idx))

/-- Steps 4-5 of `get_log_lines_above` once the chronological log list
has been fetched (the preceding steps are Loki transport): run the
extraction and wrap the outcome in the normalized `LogToolOutput`
shape — an explicit error result when the target is absent, the context
window on success. -/
def get_log_lines_above_core (chronological_logs : List LogEntry)
    (log_message : String) (lines_above : Nat) : LogToolOutput :=
  match extract_context_lines_above chronological_logs log_message lines_above with
  | .error e =>
    { status := .error, message := some e, logs := [], number_of_logs := 0 }
  | .ok context_logs =>
    { status := .success
      message := some ("Retrieved " ++ toString (context_logs.length - 1)
        ++ " lines above the target log (total " ++ toString context_logs.length
        ++ " logs including target)")
      logs := context_logs
      number_of_logs := context_logs.length }

/-! ## C4 — clustering stage
(`_handle_outlaier_cluster`, node.py:156-170, and
`train_embed_and_cluster_logs`, node.py:175-208)

```python
clusters = np.unique(cluster_labels)
max_cluster = clusters.max()
outlier_indices = np.where(cluster_labels == -1)[0]
next_cluster_id = max_cluster + 1
for idx in outlier_indices:
    cluster_labels[idx] = next_cluster_id
    next_cluster_id += 1
return cluster_labels
```
-/

/-- Rewrite every `-1` label, in index order, with consecutive fresh
ids starting at `next`; other labels are left in place (the loop body
of `_handle_outlaier_cluster`). -/
def replaceOutliers : List Int → Int → List Int
  | [], _ => []
  | l :: rest, next =>
    if l = -1 then next :: replaceOutliers rest (next + 1)
    else l :: replaceOutliers rest next

/-- Maximum of a label list (`np.unique(cluster_labels).max()`).  The
`[]` value is arbitrary: numpy raises on an empty array, and the
pipeline guards the empty case in `train_embed_and_cluster_logs`. -/
def listMaxInt : List Int → Int
  | [] => -1
  | h :: t => t.foldl max h

/-- `_handle_outlaier_cluster`: assign each noise point (`-1` label)
its own singleton cluster id, counting up from `max_cluster + 1`. -/
def handle_outlaier_cluster (cluster_labels : List Int) : List Int :=
  replaceOutliers cluster_labels (listMaxInt cluster_labels + 1)

/-- `train_embed_and_cluster_logs`: the embedding model and the sklearn
clustering algorithm are external and abstracted as `clusterFn` (log
bodies to raw labels); the stage guards the empty input and rewrites
noise labels.  Model persistence (minio/joblib) does not affect the
returned labels and is omitted. -/
def train_embed_and_cluster_logs (clusterFn : List String → List Int)
    (logs : List String) : List Int :=
  if logs.isEmpty then [] else handle_outlaier_cluster (clusterFn logs)

example :
    extract_context_lines_above
      [⟨"1", "alpha", ""⟩, ⟨"2", "beta", ""⟩, ⟨"3", "gamma", ""⟩, ⟨"4", "delta", ""⟩]
      "gam" 1 = .ok [⟨"2", "beta", ""⟩, ⟨"3", "gamma", ""⟩] := by rfl

example :
    extract_context_lines_above [⟨"1", "alpha", ""⟩] "zzz" 1 =
      .error "Target log message not found in the 1 fetched logs" := by rfl

example : handle_outlaier_cluster [0, -1, 0, -1, 1] = [0, 2, 0, 3, 1] := by decide

example : handle_outlaier_cluster [-1, -1] = [0, 1] := by decide

/-! ## C6 — classification (`classify_log`, node.py:46-59, and
`ClassifySchema`, output_scheme.py:11-21)

`classify_log` makes a single `llm.with_structured_output(ClassifySchema)`
call; the structured-output wrapper validates the model's category
against the closed `Literal` enumeration and raises a validation error
on any other value.  `classify_log` contains no retry loop and no
fallback assignment: a validation failure propagates to the caller. -/

/-- The closed category enumeration of `ClassifySchema.category`. -/
def categoryLiterals : List String :=
  [ "Cloud Infrastructure / AWS Engineers"
  , "Kubernetes / OpenShift Cluster Admins"
  , "DevOps / CI/CD Engineers (Ansible + Automation Platform)"
  , "Networking / Security Engineers"
  , "System Administrators / OS Engineers"
  , "Application Developers / GitOps / Platform Engineers"
  , "Identity & Access Management (IAM) Engineers"
  , "Other / Miscellaneous" ]

/-- `classify_log` applied to the category string the model produced:
the structured-output validation accepts exactly the
`categoryLiterals`; any other value is a propagated validation error
(no retry, no catch-all substitution appears in the function). -/
def classify_log (model_category : String) : Except String String :=
  if model_category ∈ categoryLiterals then .ok model_category
  else .error ("validation error: category outside the ClassifySchema enumeration: "
    ++ model_category)

/-! ## Retrieval engine — data model
(`embed_and_index.py` / `query_pipeline.py`)

Similarity scores are modelled as rationals.  The error store is the
insertion-ordered dictionary `error_store`, modelled as an association
list with pairwise-distinct keys. -/

/-- The per-entry sections dictionary (`error_data["sections"]`); a
missing section reads as `""` (`sections.get(..., "")`), except `code`
and `benefits` which read as `None` (`sections.get("code")`). -/
structure ErrorSections where
  description : String
  symptoms : String
  resolution : String
  code : Option String
  benefits : Option String
deriving DecidableEq, Repr

/-- One grouped knowledge entry of the `error_store` dictionary. -/
structure ErrorData where
  error_title : String
  sections : ErrorSections
  source_file : String
  page : Int
deriving DecidableEq, Repr

/-- Python `dict[key]` lookup over an insertion-ordered association
list. -/
def dictLookup (store : List (String × ErrorData)) (id : String) :
    Option ErrorData :=
  match store with
  | [] => none
  | p :: rest => if p.1 = id then some p.2 else dictLookup rest id

/-! ## C8 — composite embeddings and index build
(`AnsibleErrorEmbedder.create_composite_embeddings`,
embed_and_index.py:339-414, and
`AnsibleErrorEmbedder.build_faiss_index`, embed_and_index.py:416-448)

```python
description = sections.get("description", "").strip()
symptoms = sections.get("symptoms", "").strip()
if not description and not symptoms:
    skipped += 1
    continue
composite_parts = []
if description:
    composite_parts.append(description)
if symptoms:
    composite_parts.append(symptoms)
composite_text = "\n\n".join(composite_parts)
if use_task_prefix:
    prefixed_text = f"search_document: {composite_text}"
...
self.index_to_error_id = {i: error_id for i, error_id in enumerate(error_ids)}
self.error_store = {error_id: error_store[error_id] for error_id in error_ids}
```
-/

/-- ASCII whitespace stripped by Python's `str.strip()`. -/
def isPyWhitespace (c : Char) : Bool :=
  c = ' ' || c = '\t' || c = '\n' || c = '\r' || c = '\x0b' || c = '\x0c'

/-- Python's `str.strip()`: drop leading and trailing whitespace. -/
def pyStrip (s : String) : String :=
  ⟨((s.data.dropWhile isPyWhitespace).reverse.dropWhile isPyWhitespace).reverse⟩

/-- The non-empty stripped sections among description and symptoms, in
that order (`composite_parts`). -/
def compositeParts (s : ErrorSections) : List String :=
  (if pyStrip s.description = "" then [] else [pyStrip s.description])
    ++ (if pyStrip s.symptoms = "" then [] else [pyStrip s.symptoms])

/-- Python's `sep.join(parts)`. -/
def pyJoin (sep : String) : List String → String
  | [] => ""
  | [x] => x
  | x :: y :: rest => x ++ sep ++ pyJoin sep (y :: rest)

/-- The composite text of one entry, or `none` when both description
and symptoms strip to empty (the `continue` branch). -/
def compositeText (s : ErrorSections) : Option String :=
  if pyStrip s.description = "" ∧ pyStrip s.symptoms = "" then none
  else some (pyJoin "\n\n" (compositeParts s))

/-- The Nomic task-marker decision
(`use_task_prefix = "nomic" in self.model_name.lower()`). -/
def useTaskMarker (model_name : String) : Bool :=
  containsSub model_name.toLower "nomic"

/-- The (id, composite text) pairs of the indexable entries, in store
order — the loop body of `create_composite_embeddings` before the
task marker is applied. -/
def indexableEntries (error_store : List (String × ErrorData)) :
    List (String × String) :=
  error_store.filterMap (fun p => (compositeText p.2.sections).map (fun t => (p.1, t)))

/-- `create_composite_embeddings`: the texts handed to the embedding
client (with the Nomic task marker when applicable) and the parallel
`error_ids` list. -/
def create_composite_embeddings (model_name : String)
    (error_store : List (String × ErrorData)) : List String × List String :=
  let entries := indexableEntries error_store
  ( entries.map (fun e =>
      if useTaskMarker model_name then "search_document: " ++ e.2 else e.2)
  , entries.map Prod.fst )

/-- The `index_to_error_id` position map built by `build_faiss_index`:
position `i` holds `error_ids[i]`. -/
def indexToErrorId (error_ids : List String) : List String := error_ids

/-- The filtered `error_store` kept by `build_faiss_index`
(`{error_id: error_store[error_id] for error_id in error_ids}`). -/
def builtErrorStore (error_ids : List String)
    (error_store : List (String × ErrorData)) : List (String × ErrorData) :=
  error_ids.filterMap (fun id => (dictLookup error_store id).map (fun e => (id, e)))

example :
    compositeText ⟨" desc ", "sympt", "fix", none, none⟩ = some "desc\n\nsympt" := by rfl

example : compositeText ⟨"  ", "", "fix", some "c", none⟩ = none := by rfl

example : compositeText ⟨"", "sympt", "fix", none, none⟩ = some "sympt" := by rfl

/-! ## Embedder state and persistence
(`AnsibleErrorEmbedder`, embed_and_index.py:220-510)

`save_index` writes the FAISS index file and pickles the metadata
dictionary (`error_store`, `index_to_error_id`, `model_name`,
`api_url`, `embedding_dim`, `total_errors`); `load_index` reads both
back, restoring `index`, `error_store` and `index_to_error_id` on the
current embedder (it warns on — but does not overwrite — a differing
`model_name`).  The index file contents are modelled as the list of
stored vectors; writing and re-reading a file returns the bytes that
were written, so the file pair is modelled as the values themselves. -/

/-- In-memory embedder state: the fields of `AnsibleErrorEmbedder`
that the query path reads. -/
structure EmbedderState where
  model_name : String
  api_url : Option String
  embedding_dim : Nat
  indexVectors : List (List ℚ)
  error_store : List (String × ErrorData)
  index_to_error_id : List String
deriving Repr

/-- The pickled metadata dictionary written by `save_index`. -/
structure SavedMetadata where
  error_store : List (String × ErrorData)
  index_to_error_id : List String
  model_name : String
  api_url : Option String
  embedding_dim : Nat
  total_errors : Nat
deriving Repr

/-- The on-disk pair: FAISS index file plus metadata file, always
written and read together. -/
structure SavedFiles where
  index_file : List (List ℚ)
  metadata : SavedMetadata
deriving Repr

/-- `save_index`: persist the index and the metadata dictionary. -/
def save_index (st : EmbedderState) : SavedFiles :=
  { index_file := st.indexVectors
    metadata :=
      { error_store := st.error_store
        index_to_error_id := st.index_to_error_id
        model_name := st.model_name
        api_url := st.api_url
        embedding_dim := st.embedding_dim
        total_errors := st.error_store.length } }

/-- `load_index`: restore `index`, `error_store` and
`index_to_error_id` from the file pair onto the current embedder;
`model_name` is compared (with a warning on mismatch) but kept. -/
def load_index (st : EmbedderState) (files : SavedFiles) : EmbedderState :=
  { st with
    indexVectors := files.index_file
    error_store := files.metadata.error_store
    index_to_error_id := files.metadata.index_to_error_id }

/-! ## Query pipeline
(`AnsibleErrorQueryPipeline`, query_pipeline.py:71-327)

The FAISS `index.search` call is abstracted as `searchFn`, a function
of the stored vectors, the query vector and `top_k`, returning
(similarity, position) pairs; positions of `-1` mark missing results
and are skipped, exactly as in `_similarity_search`.  The embedding
model is abstracted as `encode`. -/

/-- A single ranked result (`ErrorResult`). -/
structure ErrorResult where
  error_id : String
  error_title : String
  similarity_score : ℚ
  source_file : String
  page : Int
  sections : ErrorSections
deriving DecidableEq, Repr

/-- The response metadata dictionary assembled by `query`
(`search_time_ms` is wall-clock time and is not modelled). -/
structure QueryMetadata where
  num_results : Nat
  num_candidates : Nat
  num_filtered : Nat
  top_k : Nat
  top_n : Nat
  similarity_threshold : ℚ
  model : String
deriving DecidableEq, Repr

/-- `QueryResponse`: query echo, ranked results, metadata. -/
structure QueryResponse where
  query : String
  results : List ErrorResult
  metadata : QueryMetadata
deriving DecidableEq, Repr

/-- Python's `x or default` applied to an optional integer argument:
`None` and `0` both fall back to the default. -/
def pyOrNat (x : Option Nat) (default : Nat) : Nat :=
  match x with
  | none => default
  | some v => if v = 0 then default else v

/-- Python's `x or default` applied to an optional float argument:
`None` and `0.0` both fall back to the default. -/
def pyOrRat (x : Option ℚ) (default : ℚ) : ℚ :=
  match x with
  | none => default
  | some v => if v = 0 then default else v

/-- `_generate_query_embedding`: prepend the `search_query:` role
marker for Nomic models, then encode. -/
def generate_query_embedding (encode : String → List ℚ) (model_name : String)
    (log_summary : String) : List ℚ :=
  if useTaskMarker model_name then encode ("search_query: " ++ log_summary)
  else encode log_summary

/-- `_similarity_search`: run the index search, skip `-1` positions,
and reconstruct complete `ErrorResult` records through
`index_to_error_id` and `error_store`.  (On a well-formed built index
every non-`-1` position has a paired id and entry; a dangling position
or id would raise a `KeyError` in Python and yields no result here.) -/
def similarity_search
    (searchFn : List (List ℚ) → List ℚ → Nat → List (ℚ × Int))
    (st : EmbedderState) (query_embedding : List ℚ) (top_k : Nat) :
    List ErrorResult :=
  (searchFn st.indexVectors query_embedding top_k).filterMap (fun p =>
    if p.2 = -1 then none
    else
      match st.index_to_error_id[p.2.toNat]? with
      | none => none
      | some error_id =>
        (dictLookup st.error_store error_id).map (fun error_data =>
          { error_id := error_id
            error_title := error_data.error_title
            similarity_score := p.1
            source_file := error_data.source_file
            page := error_data.page
            sections := error_data.sections }))

/-- `_filter_by_threshold`: keep results whose similarity reaches the
threshold. -/
def filter_by_threshold (candidates : List ErrorResult) (threshold : ℚ) :
    List ErrorResult :=
  candidates.filter (fun r => threshold ≤ r.similarity_score)

/-- `_rank_and_select`: the candidates are already rank-ordered by the
index, so selection is truncation to the first `top_n`. -/
def rank_and_select (filtered_results : List ErrorResult) (top_n : Nat) :
    List ErrorResult :=
  filtered_results.take top_n

/-- The pipeline configuration (`AnsibleErrorQueryPipeline.__init__`
defaults) plus the loaded embedder. -/
structure QueryPipeline where
  top_k : Nat := 10
  top_n : Nat := 3
  similarity_threshold : ℚ := mkRat 3 5
  embedder : EmbedderState

/-- `AnsibleErrorQueryPipeline.query`: resolve per-call overrides with
Python `or` semantics, embed, search, filter, truncate, and assemble
the response with its metadata. -/
def QueryPipeline.query (p : QueryPipeline)
    (encode : String → List ℚ)
    (searchFn : List (List ℚ) → List ℚ → Nat → List (ℚ × Int))
    (log_summary : String)
    (top_k : Option Nat := none) (top_n : Option Nat := none)
    (similarity_threshold : Option ℚ := none) : QueryResponse :=
  let top_k := pyOrNat top_k p.top_k
  let top_n := pyOrNat top_n p.top_n
  let similarity_threshold := pyOrRat similarity_threshold p.similarity_threshold
  let query_embedding := generate_query_embedding encode p.embedder.model_name log_summary
  let candidates := similarity_search searchFn p.embedder query_embedding top_k
  let filtered_results := filter_by_threshold candidates similarity_threshold
  let final_results := rank_and_select filtered_results top_n
  { query := log_summary
    results := final_results
    metadata :=
      { num_results := final_results.length
        num_candidates := candidates.length
        num_filtered := filtered_results.length
        top_k := top_k
        top_n := top_n
        similarity_threshold := similarity_threshold
        model := p.embedder.model_name } }

/-- Every rational value the assembled `QueryResponse` carries: the
similarity scores and pages of the returned results and the numeric
metadata fields.  Used to state that a number (such as the best-seen
candidate score) does or does not appear anywhere in the response. -/
def responseCarries (resp : QueryResponse) (x : ℚ) : Bool :=
  resp.results.any (fun r =>
    decide (r.similarity_score = x) || decide ((r.page : ℚ) = x))
  || decide ((resp.metadata.num_results : ℚ) = x)
  || decide ((resp.metadata.num_candidates : ℚ) = x)
  || decide ((resp.metadata.num_filtered : ℚ) = x)
  || decide ((resp.metadata.top_k : ℚ) = x)
  || decide ((resp.metadata.top_n : ℚ) = x)
  || decide (resp.metadata.similarity_threshold = x)

/-! # Theorems -/

/-- C1 (counterexample): with the non-empty loki context `"L"` and the
cheat-sheet text `"C"`, `get_more_context_node` merges the loki block
at position 0 and the knowledge-base (cheat-sheet) block at position
27, so the knowledge-base block does NOT come before the live-log
block: the claimed ordering fails at this concrete input. -/
theorem C1_counterexample :
    mergeContext (some "L") "C" =
      "Context logs from loki:\nL\n\nContext from cheat sheet:\nC" ∧
    subIdx (mergeContext (some "L") "C") "Context from cheat sheet:" = some 27 ∧
    subIdx (mergeContext (some "L") "C") "Context logs from loki:" = some 0 ∧
    appearsBeforeIn (mergeContext (some "L") "C")
      "Context from cheat sheet:" "Context logs from loki:" = false := by
  exact ⟨rfl, by decide, by decide, by decide⟩

/-- C1 (amended): whenever the live-log lookup produced non-empty text,
the merged context string is the live-log (loki) block followed by the
knowledge-base (cheat-sheet) block, in that fixed order — live logs
first, knowledge base second. -/
theorem C1_loki_block_before_kb_block (loki cheat : String) (h : loki ≠ "") :
    mergeContext (some loki) cheat =
      "Context logs from loki:\n" ++ loki ++ "\n\n"
        ++ ("Context from cheat sheet:\n" ++ cheat) := by
  simp [mergeContext, h]

/-- C1 witness: the amended ordering at a concrete input. -/
theorem C1_loki_block_before_kb_block_witness :
    mergeContext (some "L") "C" =
      "Context logs from loki:\n" ++ "L" ++ "\n\n"
        ++ ("Context from cheat sheet:\n" ++ "C") :=
  C1_loki_block_before_kb_block "L" "C" (by decide)

/-- C2: the routing node's own comparison strings never match any value
the routing schema can produce, so for every possible routing output
the next node is context gathering and the stored `needMoreContext`
flag is `false` — the solution-synthesis branch is unreachable
(and, inconsistently, the flag says no more context is needed on the
very branch that goes to fetch more context).  The binary if/else
structure itself is real: every classification string routes to one of
the two nodes. -/
theorem C2_router_solution_branch_unreachable :
    (∀ s : RouterSuggestion,
      routerGoto s.text = "get_more_context_node" ∧
      routerNeedMoreContext s.text = false) ∧
    (∀ c : String,
      routerGoto c = "suggest_step_by_step_solution_node" ∨
      routerGoto c = "get_more_context_node") := by
  constructor
  · intro s
    cases s <;> exact ⟨by decide, by decide⟩
  · intro c
    by_cases h : c = "No More Context Needed"
    · exact Or.inl (by simp [routerGoto, h])
    · exact Or.inr (by simp [routerGoto, h])

/-- C6: when the classification model returns a value outside the
closed enumeration, `classify_log` propagates a validation error — it
never retries and never substitutes the catch-all category
`"Other / Miscellaneous"` (which the enumeration does contain as its
last member).  Repeating the invalid output three times therefore
yields three propagated errors, not a stored catch-all category. -/
theorem C6_classify_log_propagates_invalid_category :
    classify_log "not-a-category" =
      .error ("validation error: category outside the ClassifySchema enumeration: "
        ++ "not-a-category") ∧
    classify_log "not-a-category" ≠ .ok "Other / Miscellaneous" ∧
    "Other / Miscellaneous" ∈ categoryLiterals := by
  have hval : classify_log "not-a-category" =
      (Except.error ("validation error: category outside the ClassifySchema enumeration: "
        ++ "not-a-category") : Except String String) := rfl
  refine ⟨hval, ?_, by decide⟩
  intro h
  rw [hval] at h
  exact Except.noConfusion h

/-- C10: passing the falsy overrides `top_k=0`, `top_n=0` and
`similarity_threshold=0.0` to `query` is indistinguishable from
passing no override at all — Python's `x or default` resolution treats
`0`/`0.0` like `None` — and in particular a threshold override of
`0.0` leaves the pipeline's configured threshold in force, so
threshold filtering cannot be disabled that way. -/
theorem C10_falsy_overrides_use_defaults (p : QueryPipeline)
    (encode : String → List ℚ)
    (searchFn : List (List ℚ) → List ℚ → Nat → List (ℚ × Int))
    (q : String) :
    p.query encode searchFn q (some 0) (some 0) (some (0 : ℚ)) =
      p.query encode searchFn q none none none ∧
    (p.query encode searchFn q none none
        (some (0 : ℚ))).metadata.similarity_threshold =
      p.similarity_threshold := by
  constructor
  · simp [QueryPipeline.query, pyOrNat, pyOrRat]
  · simp [QueryPipeline.query, pyOrRat]

/-- C3: the context-window protocol.  When the target message is first
contained in the log at index `t`, requesting `lines_above` lines
returns exactly the `min lines_above t + 1` entries from index
`t - lines_above` (truncated at 0) through `t`, in their original
chronological order, wrapped in a success result; when no fetched log
contains the target, the result is the explicit not-found error, never
a truncated window. -/
theorem C3_context_window_protocol (all_logs : List LogEntry)
    (target_message : String) (lines_above : Nat) :
    (∀ t, all_logs.findIdx? (fun log => containsSub log.message target_message) =
        some t →
      extract_context_lines_above all_logs target_message lines_above =
        .ok ((all_logs.drop (t - lines_above)).take (min lines_above t + 1)) ∧
      ((all_logs.drop (t - lines_above)).take (min lines_above t + 1)).length =
        min lines_above t + 1 ∧
      (∀ i, i < min lines_above t + 1 →
        ((all_logs.drop (t - lines_above)).take (min lines_above t + 1))[i]? =
          all_logs[t - lines_above + i]?) ∧
      (get_log_lines_above_core all_logs target_message lines_above).status =
        .success ∧
      (get_log_lines_above_core all_logs target_message lines_above).logs =
        (all_logs.drop (t - lines_above)).take (min lines_above t + 1)) ∧
    (all_logs.findIdx? (fun log => containsSub log.message target_message) = none →
      extract_context_lines_above all_logs target_message lines_above =
        .error ("Target log message not found in the " ++ toString all_logs.length
          ++ " fetched logs") ∧
      get_log_lines_above_core all_logs target_message lines_above =
        { status := .error
          message := some ("Target log message not found in the "
            ++ toString all_logs.length ++ " fetched logs")
          logs := []
          number_of_logs := 0 }) := by
  constructor
  · intro t h
    have ht : t < all_logs.length :=
      (List.findIdx?_eq_some_iff_findIdx_eq.mp h).1
    have harith : t + 1 - (t - lines_above) = min lines_above t + 1 := by omega
    have hex : extract_context_lines_above all_logs target_message lines_above =
        .ok ((all_logs.drop (t - lines_above)).take (min lines_above t + 1)) := by
      unfold extract_context_lines_above
      rw [h, ← harith]
    refine ⟨hex, ?_, ?_, ?_, ?_⟩
    · rw [List.length_take, List.length_drop]
      omega
    · intro i hi
      rw [List.getElem?_take_of_lt hi, List.getElem?_drop]
    · unfold get_log_lines_above_core
      rw [hex]
    · unfold get_log_lines_above_core
      rw [hex]
  · intro h
    have hex : extract_context_lines_above all_logs target_message lines_above =
        .error ("Target log message not found in the " ++ toString all_logs.length
          ++ " fetched logs") := by
      unfold extract_context_lines_above
      rw [h]
    refine ⟨hex, ?_⟩
    unfold get_log_lines_above_core
    rw [hex]

/-- The spec's synthetic test log: 100 chronologically ordered lines. -/
def syntheticLog : List LogEntry :=
  (List.range 100).map (fun n => ⟨toString n, "line " ++ toString n ++ " end", ""⟩)

/-- C3 witness: on the 100-line synthetic log with the target at
position 60, requesting 10 lines above yields exactly the 11-entry
window of lines 50–60, and a target absent from the log yields the
explicit not-found error. -/
theorem C3_context_window_protocol_witness :
    extract_context_lines_above syntheticLog "line 60 end" 10 =
      .ok ((syntheticLog.drop (60 - 10)).take (min 10 60 + 1)) ∧
    extract_context_lines_above syntheticLog "missing line" 10 =
      .error ("Target log message not found in the " ++ toString syntheticLog.length
        ++ " fetched logs") :=
  ⟨((C3_context_window_protocol syntheticLog "line 60 end" 10).1 60 (by decide)).1,
   ((C3_context_window_protocol syntheticLog "missing line" 10).2 (by decide)).1⟩

/-- C5: for any loaded index and query text, `query` returns at most
`top_n` results, every returned result's similarity reaches the
threshold in force, and the results are in non-increasing similarity
order.  The one external fact used as a hypothesis is the FAISS
contract recorded in `_rank_and_select` ("results are already sorted
by FAISS"): the candidate list comes back in non-increasing similarity
order. -/
theorem C5_query_bounded_filtered_sorted (p : QueryPipeline)
    (encode : String → List ℚ)
    (searchFn : List (List ℚ) → List ℚ → Nat → List (ℚ × Int))
    (q : String) (tk tn : Option Nat) (th : Option ℚ)
    (hsorted : (similarity_search searchFn p.embedder
        (generate_query_embedding encode p.embedder.model_name q)
        (pyOrNat tk p.top_k)).Pairwise
      (fun a b => b.similarity_score ≤ a.similarity_score)) :
    (p.query encode searchFn q tk tn th).results.length ≤ pyOrNat tn p.top_n ∧
    (∀ r ∈ (p.query encode searchFn q tk tn th).results,
      pyOrRat th p.similarity_threshold ≤ r.similarity_score) ∧
    (p.query encode searchFn q tk tn th).results.Pairwise
      (fun a b => b.similarity_score ≤ a.similarity_score) := by
  have hres : (p.query encode searchFn q tk tn th).results =
      ((similarity_search searchFn p.embedder
          (generate_query_embedding encode p.embedder.model_name q)
          (pyOrNat tk p.top_k)).filter
        (fun r => pyOrRat th p.similarity_threshold ≤ r.similarity_score)).take
        (pyOrNat tn p.top_n) := rfl
  refine ⟨?_, ?_, ?_⟩
  · rw [hres]
    exact List.length_take_le _ _
  · intro r hr
    rw [hres] at hr
    exact of_decide_eq_true (List.mem_filter.mp (List.take_subset _ _ hr)).2
  · rw [hres]
    exact List.Pairwise.sublist (List.take_sublist _ _) (hsorted.filter _)

/-- A knowledge entry used to exercise the query pipeline on concrete
inputs. -/
def sampleEntry : ErrorData :=
  { error_title := "Sample error"
    sections := ⟨"desc", "sympt", "fix", none, none⟩
    source_file := "kb.pdf"
    page := 1 }

/-- A loaded two-entry embedder used to exercise the query pipeline on
concrete inputs. -/
def sampleEmbedder : EmbedderState :=
  { model_name := "all-minilm"
    api_url := none
    embedding_dim := 2
    indexVectors := [[1, 0], [0, 1]]
    error_store := [("e1", sampleEntry), ("e2", sampleEntry)]
    index_to_error_id := ["e1", "e2"] }

/-- A query pipeline over `sampleEmbedder` with the constructor
defaults (`top_k=10`, `top_n=3`, threshold `0.6`). -/
def samplePipeline : QueryPipeline := { embedder := sampleEmbedder }

/-- C5 witness: the bound at a concrete sorted two-candidate search. -/
theorem C5_query_bounded_filtered_sorted_witness :
    (samplePipeline.query (fun _ => [1, 0])
        (fun _ _ k => [(mkRat 9 10, (0 : Int)), (mkRat 1 2, 1)].take k)
        "q").results.length ≤ 3 :=
  (C5_query_bounded_filtered_sorted samplePipeline (fun _ => [1, 0])
    (fun _ _ k => [(mkRat 9 10, (0 : Int)), (mkRat 1 2, 1)].take k)
    "q" none none none (by decide)).1

/-- C7 (amended): when no candidate reaches the threshold, `query`
returns an explicit `QueryResponse` whose result list is empty and
whose metadata records zero results — the "no knowledge match" path is
a normal return, not an exception (the embedded `query` is a total
function and the Python path contains no raise).  The best-seen
candidate score, however, is only printed to the console by
`_filter_by_threshold`; the returned response does not carry it. -/
theorem C7_no_match_empty_response (p : QueryPipeline)
    (encode : String → List ℚ)
    (searchFn : List (List ℚ) → List ℚ → Nat → List (ℚ × Int))
    (q : String) (tk tn : Option Nat) (th : Option ℚ)
    (h : ∀ r ∈ similarity_search searchFn p.embedder
        (generate_query_embedding encode p.embedder.model_name q)
        (pyOrNat tk p.top_k),
      r.similarity_score < pyOrRat th p.similarity_threshold) :
    (p.query encode searchFn q tk tn th).results = [] ∧
    (p.query encode searchFn q tk tn th).metadata.num_results = 0 ∧
    (p.query encode searchFn q tk tn th).metadata.num_filtered = 0 := by
  have hfil : (similarity_search searchFn p.embedder
      (generate_query_embedding encode p.embedder.model_name q)
      (pyOrNat tk p.top_k)).filter
        (fun r => pyOrRat th p.similarity_threshold ≤ r.similarity_score) = [] := by
    refine List.filter_eq_nil_iff.mpr (fun a ha => ?_)
    simp only [decide_eq_true_eq]
    exact not_le.mpr (h a ha)
  have hres : (p.query encode searchFn q tk tn th).results =
      ((similarity_search searchFn p.embedder
          (generate_query_embedding encode p.embedder.model_name q)
          (pyOrNat tk p.top_k)).filter
        (fun r => pyOrRat th p.similarity_threshold ≤ r.similarity_score)).take
        (pyOrNat tn p.top_n) := rfl
  have hnil : (p.query encode searchFn q tk tn th).results = [] := by
    rw [hres, hfil, List.take_nil]
  refine ⟨hnil, ?_, ?_⟩
  · show (p.query encode searchFn q tk tn th).results.length = 0
    rw [hnil]
    rfl
  · show ((similarity_search searchFn p.embedder
        (generate_query_embedding encode p.embedder.model_name q)
        (pyOrNat tk p.top_k)).filter
        (fun r => pyOrRat th p.similarity_threshold ≤ r.similarity_score)).length = 0
    rw [hfil]
    rfl

/-- C7 witness: the empty-response path at a concrete below-threshold
candidate. -/
theorem C7_no_match_empty_response_witness :
    (samplePipeline.query (fun _ => [1, 0])
        (fun _ _ _ => [(mkRat 2 5, (0 : Int))]) "q").results = [] :=
  (C7_no_match_empty_response samplePipeline (fun _ => [1, 0])
    (fun _ _ _ => [(mkRat 2 5, (0 : Int))]) "q" none none none (by decide)).1

/-- C7 (counterexample): with one candidate scoring `1/2` against the
default threshold `3/5`, the response has an empty result list (that
part of the claim holds) but carries the best-seen score `1/2` nowhere
— not in the metadata and not in the (empty) result list: the
best-seen score is printed, not returned. -/
theorem C7_counterexample :
    (samplePipeline.query (fun _ => [1, 0])
        (fun _ _ _ => [(mkRat 1 2, (0 : Int))]) "q").results = [] ∧
    (samplePipeline.query (fun _ => [1, 0])
        (fun _ _ _ => [(mkRat 1 2, (0 : Int))]) "q").metadata.num_candidates = 1 ∧
    responseCarries
      (samplePipeline.query (fun _ => [1, 0])
        (fun _ _ _ => [(mkRat 1 2, (0 : Int))]) "q") (mkRat 1 2) = false := by
  exact ⟨by decide, by decide, by decide⟩

/-- C9: `save_index` persists every field the query path reads (index
vectors, entry store, position↔id map) and `load_index` restores them
onto an embedder; a retrieval engine built over the reloaded files
answers every query — in particular its top-1 result — identically to
the in-memory engine before the save, provided the fresh embedder is
configured with the same model identity (`load_index` keeps the current
`model_name` and only warns on mismatch). -/
theorem C9_save_load_round_trip (st fresh : EmbedderState)
    (hmodel : fresh.model_name = st.model_name)
    (tk tn : Nat) (th : ℚ)
    (encode : String → List ℚ)
    (searchFn : List (List ℚ) → List ℚ → Nat → List (ℚ × Int))
    (q : String) (tko tno : Option Nat) (tho : Option ℚ) :
    QueryPipeline.query
        { top_k := tk, top_n := tn, similarity_threshold := th
          embedder := load_index fresh (save_index st) }
        encode searchFn q tko tno tho =
      QueryPipeline.query
        { top_k := tk, top_n := tn, similarity_threshold := th, embedder := st }
        encode searchFn q tko tno tho ∧
    (QueryPipeline.query
        { top_k := tk, top_n := tn, similarity_threshold := th
          embedder := load_index fresh (save_index st) }
        encode searchFn q tko tno tho).results.head? =
      (QueryPipeline.query
        { top_k := tk, top_n := tn, similarity_threshold := th, embedder := st }
        encode searchFn q tko tno tho).results.head? := by
  have hq : QueryPipeline.query
      { top_k := tk, top_n := tn, similarity_threshold := th
        embedder := load_index fresh (save_index st) }
      encode searchFn q tko tno tho =
      QueryPipeline.query
        { top_k := tk, top_n := tn, similarity_threshold := th, embedder := st }
        encode searchFn q tko tno tho := by
    simp only [QueryPipeline.query, load_index, save_index, similarity_search,
      generate_query_embedding, hmodel]
  exact ⟨hq, by rw [hq]⟩

/-- A freshly constructed embedder (no index, no entries) configured
with the same model as `sampleEmbedder`, about to load the saved
files. -/
def freshEmbedder : EmbedderState :=
  { model_name := "all-minilm"
    api_url := none
    embedding_dim := 2
    indexVectors := []
    error_store := []
    index_to_error_id := [] }

/-- C9 witness: the round trip at a concrete embedder and query. -/
theorem C9_save_load_round_trip_witness :
    (QueryPipeline.query
        { top_k := 10, top_n := 3, similarity_threshold := mkRat 3 5
          embedder := load_index freshEmbedder (save_index sampleEmbedder) }
        (fun _ => [1, 0]) (fun _ _ k => [(mkRat 9 10, (0 : Int))].take k)
        "q" none none none).results.head? =
      (QueryPipeline.query
        { top_k := 10, top_n := 3, similarity_threshold := mkRat 3 5
          embedder := sampleEmbedder }
        (fun _ => [1, 0]) (fun _ _ k => [(mkRat 9 10, (0 : Int))].take k)
        "q" none none none).results.head? :=
  (C9_save_load_round_trip sampleEmbedder freshEmbedder (by decide) 10 3 (mkRat 3 5)
    (fun _ => [1, 0]) (fun _ _ k => [(mkRat 9 10, (0 : Int))].take k)
    "q" none none none).2

/-! ### Clustering-stage lemmas -/

theorem replaceOutliers_length (l : List Int) (next : Int) :
    (replaceOutliers l next).length = l.length := by
  induction l generalizing next with
  | nil => rfl
  | cons a t ih =>
    by_cases ha : a = -1 <;> simp [replaceOutliers, ha, ih]

/-- Number of noise (`-1`) labels among the first `i` entries. -/
def noiseCount (l : List Int) (i : Nat) : Nat :=
  (l.take i).countP (fun x => decide (x = -1))

theorem noiseCount_succ (l : List Int) (i : Nat) :
    noiseCount l (i + 1) =
      noiseCount l i + (if l[i]? = some (-1) then 1 else 0) := by
  rw [noiseCount, noiseCount, List.take_succ, List.countP_append]
  cases hv : l[i]? with
  | none => simp
  | some v =>
    by_cases hv1 : v = -1 <;>
      simp [Option.toList, List.countP_cons, hv1]

theorem noiseCount_mono (l : List Int) {i j : Nat} (h : i ≤ j) :
    noiseCount l i ≤ noiseCount l j := by
  have ht : l.take i = (l.take j).take i := by
    rw [List.take_take, Nat.min_eq_left h]
  rw [noiseCount, noiseCount, ht]
  exact (List.take_sublist _ _).countP_le _

theorem noiseCount_strict (l : List Int) {i j : Nat} (hij : i < j)
    (hi : l[i]? = some (-1)) : noiseCount l i < noiseCount l j := by
  have h1 : noiseCount l i < noiseCount l (i + 1) := by
    rw [noiseCount_succ, hi]
    simp
  exact lt_of_lt_of_le h1 (noiseCount_mono l hij)

theorem replaceOutliers_getElem? (l : List Int) (next : Int) (i : Nat) :
    (replaceOutliers l next)[i]? =
      (l[i]?).map (fun v => if v = -1 then next + noiseCount l i else v) := by
  induction l generalizing next i with
  | nil => simp [replaceOutliers]
  | cons a t ih =>
    by_cases ha : a = -1
    · rw [show replaceOutliers (a :: t) next =
          next :: replaceOutliers t (next + 1) from by simp [replaceOutliers, ha]]
      cases i with
      | zero => simp [ha, noiseCount]
      | succ i =>
        rw [List.getElem?_cons_succ, ih, List.getElem?_cons_succ]
        have hcnt : noiseCount (a :: t) (i + 1) = noiseCount t i + 1 := by
          rw [noiseCount, noiseCount, List.take_succ_cons, List.countP_cons]
          simp [ha]
        rw [hcnt]
        cases hv : t[i]? with
        | none => simp
        | some v =>
          by_cases hv1 : v = -1
          · simp only [hv1, Option.map_some', if_pos]
            refine congrArg some ?_
            push_cast
            omega
          · simp [hv1]
    · rw [show replaceOutliers (a :: t) next =
          a :: replaceOutliers t next from by simp [replaceOutliers, ha]]
      cases i with
      | zero => simp [ha]
      | succ i =>
        rw [List.getElem?_cons_succ, ih, List.getElem?_cons_succ]
        have hcnt : noiseCount (a :: t) (i + 1) = noiseCount t i := by
          rw [noiseCount, noiseCount, List.take_succ_cons, List.countP_cons]
          simp [ha]
        rw [hcnt]

theorem le_foldl_max (t : List Int) (a : Int) : a ≤ t.foldl max a := by
  induction t generalizing a with
  | nil => exact le_refl a
  | cons b t ih => exact le_trans (le_max_left a b) (ih (max a b))

theorem mem_le_foldl_max {x : Int} (t : List Int) (a : Int) (hx : x ∈ t) :
    x ≤ t.foldl max a := by
  induction t generalizing a with
  | nil => cases hx
  | cons b t ih =>
    rcases List.mem_cons.mp hx with h | h
    · subst h
      exact le_trans (le_max_right a x) (le_foldl_max t (max a x))
    · exact ih (max a b) h

theorem le_listMaxInt {x : Int} {l : List Int} (hx : x ∈ l) : x ≤ listMaxInt l := by
  cases l with
  | nil => cases hx
  | cons h t =>
    rcases List.mem_cons.mp hx with h1 | h1
    · subst h1
      exact le_foldl_max t x
    · exact mem_le_foldl_max t h h1

theorem listMaxInt_ge_neg_one {l : List Int} (hne : l ≠ [])
    (hall : ∀ v ∈ l, -1 ≤ v) : -1 ≤ listMaxInt l := by
  cases l with
  | nil => exact absurd rfl hne
  | cons h t =>
    exact le_trans (hall h (List.mem_cons_self h t))
      (le_listMaxInt (List.mem_cons_self h t))

/-- C4: for a non-empty input list, the clustering stage's output has
the same length as the input, keeps every non-noise label at its input
position, contains no `-1` (noise sentinel) label, and gives every
input that the underlying algorithm marked `-1` a label distinct from
every other output position — a fresh singleton cluster id.  The
underlying embedding+clustering algorithm is external (sklearn) and
enters as `clusterFn`, with its contract as hypotheses: one label per
input and labels no smaller than the noise sentinel. -/
theorem C4_cluster_stage_labels (clusterFn : List String → List Int)
    (logs : List String) (hne : logs ≠ [])
    (hlen : (clusterFn logs).length = logs.length)
    (hnoise : ∀ v ∈ clusterFn logs, -1 ≤ v) :
    (train_embed_and_cluster_logs clusterFn logs).length = logs.length ∧
    (∀ v ∈ train_embed_and_cluster_logs clusterFn logs, v ≠ -1) ∧
    (∀ (i : Nat) (v : Int), (clusterFn logs)[i]? = some v → v ≠ -1 →
      (train_embed_and_cluster_logs clusterFn logs)[i]? = some v) ∧
    (∀ (i : Nat), (clusterFn logs)[i]? = some (-1) → ∀ (j : Nat), j ≠ i →
      (train_embed_and_cluster_logs clusterFn logs)[j]? ≠
        (train_embed_and_cluster_logs clusterFn logs)[i]?) := by
  have hlne : clusterFn logs ≠ [] := by
    intro h0
    apply hne
    rw [h0] at hlen
    exact List.length_eq_zero.mp hlen.symm
  have hM : (-1 : Int) ≤ listMaxInt (clusterFn logs) :=
    listMaxInt_ge_neg_one hlne hnoise
  have hout : train_embed_and_cluster_logs clusterFn logs =
      replaceOutliers (clusterFn logs) (listMaxInt (clusterFn logs) + 1) := by
    rw [train_embed_and_cluster_logs, if_neg]
    · rfl
    · simp [List.isEmpty_iff, hne]
  refine ⟨?_, ?_, ?_, ?_⟩
  · rw [hout, replaceOutliers_length]
    exact hlen
  · intro v hv
    obtain ⟨i, hi⟩ := List.mem_iff_getElem?.mp hv
    rw [hout, replaceOutliers_getElem?] at hi
    cases hw : (clusterFn logs)[i]? with
    | none =>
      rw [hw] at hi
      exact Option.noConfusion hi
    | some w =>
      rw [hw, Option.map_some'] at hi
      have hfw := Option.some.inj hi
      by_cases hw1 : w = -1
      · rw [if_pos hw1] at hfw
        intro hveq
        omega
      · rw [if_neg hw1] at hfw
        rw [← hfw]
        exact hw1
  · intro i v hiv hv1
    rw [hout, replaceOutliers_getElem?, hiv, Option.map_some', if_neg hv1]
  · intro i hi j hj
    rw [hout, replaceOutliers_getElem?, replaceOutliers_getElem?, hi,
      Option.map_some', if_pos rfl]
    cases hw : (clusterFn logs)[j]? with
    | none => simp
    | some w =>
      rw [Option.map_some']
      intro heq
      have hfw := Option.some.inj heq
      by_cases hw1 : w = -1
      · rw [if_pos hw1] at hfw
        rw [hw1] at hw
        rcases lt_or_gt_of_ne hj with hlt | hgt
        · have := noiseCount_strict (clusterFn logs) hlt hw
          omega
        · have := noiseCount_strict (clusterFn logs) hgt hi
          omega
      · rw [if_neg hw1] at hfw
        have hmem : w ∈ clusterFn logs := List.getElem?_mem hw
        have := le_listMaxInt hmem
        omega

/-- C4 witness: labels `[0, -1, 0, -1]` over four logs — the output
keeps one label per input. -/
theorem C4_cluster_stage_labels_witness :
    (train_embed_and_cluster_logs (fun _ => [0, -1, 0, -1])
      ["a", "b", "c", "d"]).length = (["a", "b", "c", "d"] : List String).length :=
  (C4_cluster_stage_labels (fun _ => [0, -1, 0, -1]) ["a", "b", "c", "d"]
    (by decide) (by decide) (by decide)).1

/-! ### Retrieval-engine indexing lemmas -/

theorem compositeText_eq_of_usable (s : ErrorSections)
    (h : ¬(pyStrip s.description = "" ∧ pyStrip s.symptoms = "")) :
    compositeText s = some
      (if pyStrip s.description = "" then pyStrip s.symptoms
       else if pyStrip s.symptoms = "" then pyStrip s.description
       else pyStrip s.description ++ "\n\n" ++ pyStrip s.symptoms) := by
  rw [compositeText, if_neg h]
  by_cases hd : pyStrip s.description = ""
  · by_cases hs : pyStrip s.symptoms = ""
    · exact absurd ⟨hd, hs⟩ h
    · simp [compositeParts, hd, hs, pyJoin]
  · by_cases hs : pyStrip s.symptoms = ""
    · simp [compositeParts, hd, hs, pyJoin]
    · simp [compositeParts, hd, hs, pyJoin]

theorem dict_key_unique {store : List (String × ErrorData)}
    (h : (store.map Prod.fst).Nodup) {id : String} {e1 e2 : ErrorData}
    (h1 : (id, e1) ∈ store) (h2 : (id, e2) ∈ store) : e1 = e2 := by
  induction store with
  | nil => cases h1
  | cons p rest ih =>
    rw [List.map_cons, List.nodup_cons] at h
    rcases List.mem_cons.mp h1 with e1p | h1t
    · rcases List.mem_cons.mp h2 with e2p | h2t
      · exact congrArg Prod.snd (e1p.trans e2p.symm)
      · exfalso
        apply h.1
        rw [← e1p]
        exact List.mem_map.mpr ⟨(id, e2), h2t, rfl⟩
    · rcases List.mem_cons.mp h2 with e2p | h2t
      · exfalso
        apply h.1
        rw [← e2p]
        exact List.mem_map.mpr ⟨(id, e1), h1t, rfl⟩
      · exact ih h.2 h1t h2t

/-- C8: the indexable entries are exactly those with a usable
description or symptoms section; each one's composite text is exactly
the "\n\n"-concatenation of its non-empty stripped sections among
description and symptoms (resolution and code never enter); an entry
whose two sections both strip to empty appears neither among the
embedded ids, nor in the position↔id map, nor in the metadata store
kept by `build_faiss_index`; and the embedded texts stay in one-to-one
positional correspondence with the embedded ids. -/
theorem C8_composite_embedding_invariants (model_name : String)
    (error_store : List (String × ErrorData))
    (hnodup : (error_store.map Prod.fst).Nodup) :
    (∀ pr ∈ indexableEntries error_store,
      ∃ e : ErrorData, (pr.1, e) ∈ error_store ∧
        ¬(pyStrip e.sections.description = "" ∧
          pyStrip e.sections.symptoms = "") ∧
        pr.2 =
          (if pyStrip e.sections.description = "" then pyStrip e.sections.symptoms
           else if pyStrip e.sections.symptoms = "" then
             pyStrip e.sections.description
           else pyStrip e.sections.description ++ "\n\n"
             ++ pyStrip e.sections.symptoms)) ∧
    (∀ (id : String) (e : ErrorData), (id, e) ∈ error_store →
      pyStrip e.sections.description = "" → pyStrip e.sections.symptoms = "" →
      id ∉ (create_composite_embeddings model_name error_store).2 ∧
      id ∉ indexToErrorId (create_composite_embeddings model_name error_store).2 ∧
      (∀ e2 : ErrorData, (id, e2) ∉
        builtErrorStore (create_composite_embeddings model_name error_store).2
          error_store)) ∧
    (create_composite_embeddings model_name error_store).1.length =
      (create_composite_embeddings model_name error_store).2.length := by
  have hmain : ∀ pr ∈ indexableEntries error_store,
      ∃ e : ErrorData, (pr.1, e) ∈ error_store ∧
        compositeText e.sections = some pr.2 := by
    intro pr hpr
    obtain ⟨p, hps, hf⟩ := List.mem_filterMap.mp hpr
    cases hc : compositeText p.2.sections with
    | none =>
      rw [hc] at hf
      exact Option.noConfusion hf
    | some t =>
      rw [hc, Option.map_some'] at hf
      have hpt := Option.some.inj hf
      refine ⟨p.2, ?_, ?_⟩
      · rw [← hpt]
        exact hps
      · rw [← hpt, hc]
  have hnotin : ∀ (id : String) (e : ErrorData), (id, e) ∈ error_store →
      pyStrip e.sections.description = "" → pyStrip e.sections.symptoms = "" →
      id ∉ (create_composite_embeddings model_name error_store).2 := by
    intro id e hmem hd hs hid
    obtain ⟨pr, hpr, hfst⟩ := List.mem_map.mp hid
    obtain ⟨e1, he1mem, he1text⟩ := hmain pr hpr
    rw [hfst] at he1mem
    have : e1 = e := dict_key_unique hnodup he1mem hmem
    rw [this, compositeText, if_pos ⟨hd, hs⟩] at he1text
    exact Option.noConfusion he1text
  refine ⟨?_, ?_, ?_⟩
  · intro pr hpr
    obtain ⟨e, hmem, htext⟩ := hmain pr hpr
    have husable : ¬(pyStrip e.sections.description = "" ∧
        pyStrip e.sections.symptoms = "") := by
      intro hboth
      rw [compositeText, if_pos hboth] at htext
      exact Option.noConfusion htext
    refine ⟨e, hmem, husable, ?_⟩
    have := (compositeText_eq_of_usable e.sections husable).symm.trans htext
    exact (Option.some.inj this).symm
  · intro id e hmem hd hs
    refine ⟨hnotin id e hmem hd hs, hnotin id e hmem hd hs, ?_⟩
    intro e2 hmem2
    obtain ⟨id1, hid1, hf⟩ := List.mem_filterMap.mp hmem2
    cases hdl : dictLookup error_store id1 with
    | none =>
      rw [hdl] at hf
      exact Option.noConfusion hf
    | some e3 =>
      rw [hdl, Option.map_some'] at hf
      have := Option.some.inj hf
      have hid1eq : id1 = id := congrArg Prod.fst this
      rw [hid1eq] at hid1
      exact hnotin id e hmem hd hs hid1
  · simp [create_composite_embeddings]

/-- C8 witness: a three-entry store — one entry with both sections
blank — has the texts and ids in positional correspondence. -/
theorem C8_composite_embedding_invariants_witness :
    (create_composite_embeddings "m"
      [("e1", { error_title := "A"
                sections := ⟨"d1", "s1", "r1", none, none⟩
                source_file := "f", page := 1 }),
       ("e2", { error_title := "B"
                sections := ⟨"  ", "", "r2", none, none⟩
                source_file := "f", page := 2 }),
       ("e3", { error_title := "C"
                sections := ⟨"", "s3", "r3", none, none⟩
                source_file := "f", page := 3 })]).1.length =
    (create_composite_embeddings "m"
      [("e1", { error_title := "A"
                sections := ⟨"d1", "s1", "r1", none, none⟩
                source_file := "f", page := 1 }),
       ("e2", { error_title := "B"
                sections := ⟨"  ", "", "r2", none, none⟩
                source_file := "f", page := 2 }),
       ("e3", { error_title := "C"
                sections := ⟨"", "s3", "r3", none, none⟩
                source_file := "f", page := 3 })]).2.length :=
  (C8_composite_embedding_invariants "m" _ (by decide)).2.2
